import Mathlib

/-!
Shallow embedding of the recursive stock-forecasting core of
`src/stock_analysis/stock.py` (`class StockPredictor`), covering:

* the technical-indicator columns computed in `prepare_features`
  (lines 57-86: moving averages, RSI, MACD, Bollinger bands, change rates);
* the sliding-window feature construction (lines 88-128);
* the synthetic-bar builder `create_feature_from_prediction` (lines 160-190);
* the recursive forecast loop `predict_future` (lines 192-252).

Prices and indicator values are modelled as exact rationals (`ℚ`) where the
source computes them by closed rational formulas, and as reals (`ℝ`) where a
square root enters (rolling standard deviation, hence the Bollinger and
volatility columns and everything downstream).  A possibly-NaN float cell is
modelled as an `Option` value, `none` standing for NaN.
-/

namespace Stock

/-- One raw OHLCV bar, a row of the fetched price history. -/
structure Bar where
  Open : ℚ
  High : ℚ
  Low : ℚ
  Close : ℚ
  Volume : ℚ
deriving Repr, DecidableEq

instance : Inhabited Bar := ⟨⟨0, 0, 0, 0, 0⟩⟩

/-- Pandas `Series.diff()`: first entry NaN, then successive differences. -/
def diffCol (xs : List ℚ) : List (Option ℚ) :=
  match xs with
  | [] => []
  | _ :: t => none :: t.zipWith (fun a b => some (a - b)) xs

/-- Source line 64, `delta.where(delta > 0, 0)`: the NaN at index 0 compares
as not-greater-than-zero and is therefore replaced by `0`, like every
non-positive delta. -/
def gainCol (xs : List ℚ) : List ℚ :=
  (diffCol xs).map fun o =>
    match o with
    | none => 0
    | some d => if 0 < d then d else 0

/-- Source line 65, `(-delta.where(delta < 0, 0))`: NaN again becomes `0`. -/
def lossCol (xs : List ℚ) : List ℚ :=
  (diffCol xs).map fun o =>
    match o with
    | none => 0
    | some d => if d < 0 then -d else 0

/-- Trailing rolling mean of window `w` at index `i` (pandas
`rolling(window=w).mean()` over a NaN-free series): defined once `w`
observations exist, i.e. from index `w - 1` on. -/
def rollMeanAt (w : ℕ) (xs : List ℚ) (i : ℕ) : Option ℚ :=
  if w ≤ i + 1 then some ((((xs.drop (i + 1 - w)).take w).sum) / w) else none

/-- Rolling-mean column, index-aligned with `xs`. -/
def rollMeanCol (w : ℕ) (xs : List ℚ) : List (Option ℚ) :=
  (List.range xs.length).map (rollMeanAt w xs)

/-- RSI cell at index `i` (source lines 62-67).  `rs = gain/loss` in floats:
`loss = 0 < gain` gives `rs = +inf` and `RSI = 100 - 100/(1+inf) = 100`;
`gain = loss = 0` gives `rs = 0/0 = NaN`, so the RSI cell is NaN. -/
def rsiAt (xs : List ℚ) (i : ℕ) : Option ℚ :=
  match rollMeanAt 14 (gainCol xs) i, rollMeanAt 14 (lossCol xs) i with
  | some g, some l =>
      if l = 0 then (if g = 0 then none else some 100)
      else some (100 - 100 / (1 + g / l))
  | _, _ => none

/-- RSI column, index-aligned with the close series `xs`. -/
def rsiCol (xs : List ℚ) : List (Option ℚ) :=
  (List.range xs.length).map (rsiAt xs)

/-- Pandas `ewm(span=s).mean()` with its default `adjust=True`:
`y_t = N_t / D_t` with `N_t = x_t + (1-α) N_(t-1)`, `D_t = 1 + (1-α) D_(t-1)`
and `α = 2/(span+1)`.  Defined at every index. -/
def ewmGo (c : ℚ) : ℚ → ℚ → List ℚ → List ℚ
  | _, _, [] => []
  | n, d, x :: rest =>
      let n1 := x + c * n
      let d1 := 1 + c * d
      (n1 / d1) :: ewmGo c n1 d1 rest

/-- Exponentially weighted mean column for a given span (source lines 70-73). -/
def ewmCol (span : ℕ) (xs : List ℚ) : List ℚ :=
  ewmGo (1 - 2 / (span + 1)) 0 0 xs

/-- MACD column: `EMA(span 12) - EMA(span 26)` (line 72). -/
def macdCol (xs : List ℚ) : List ℚ :=
  (ewmCol 12 xs).zipWith (fun a b => a - b) (ewmCol 26 xs)

/-- MACD signal column: `EMA(MACD, span 9)` (line 73). -/
def macdSignalCol (xs : List ℚ) : List ℚ :=
  ewmCol 9 (macdCol xs)

/-- MACD histogram column: `MACD - signal` (line 74). -/
def macdHistCol (xs : List ℚ) : List ℚ :=
  (macdCol xs).zipWith (fun a b => a - b) (macdSignalCol xs)

/-- Trailing rolling sample variance (window `w`, `ddof = 1` as in pandas
`rolling().std()`), before the square root. -/
def rollVarAt (w : ℕ) (xs : List ℚ) (i : ℕ) : Option ℚ :=
  if w ≤ i + 1 then
    let win := (xs.drop (i + 1 - w)).take w
    let m := win.sum / w
    some ((win.map (fun x => (x - m) ^ 2)).sum / (w - 1))
  else none

/-- Percent-change cell (pandas `pct_change()`): NaN at index 0, otherwise
`(x_i - x_(i-1)) / x_(i-1)`.  (Lean's `q / 0 = 0` convention replaces the
IEEE infinity that pandas would produce on a zero denominator; no claim
touches that degenerate case.) -/
def pctChangeAt (xs : List ℚ) (i : ℕ) : Option ℚ :=
  if i = 0 then none
  else some ((xs.getD i 0 - xs.getD (i - 1) 0) / xs.getD (i - 1) 0)

/-- One possibly-NaN float cell of the enriched data table. -/
abbrev Cell : Type := Option ℝ

/-- Coerce a possibly-NaN rational cell into a real cell. -/
def cQ (o : Option ℚ) : Cell := o.map fun q => (q : ℝ)

/-- Close column of a bar list. -/
def closes (bars : List Bar) : List ℚ := bars.map Bar.Close

/-- Volume column of a bar list. -/
def volumes (bars : List Bar) : List ℚ := bars.map Bar.Volume

/-- Bollinger upper band at index `i`: 20-day mean plus two 20-day rolling
standard deviations (lines 77-79; pandas `rolling().std()` uses the sample
deviation, `ddof = 1`). -/
noncomputable def bbUpperAt (bars : List Bar) (i : ℕ) : Cell :=
  match rollMeanAt 20 (closes bars) i, rollVarAt 20 (closes bars) i with
  | some m, some v => some ((m : ℝ) + 2 * Real.sqrt (v : ℝ))
  | _, _ => none

/-- Bollinger lower band at index `i` (line 80). -/
noncomputable def bbLowerAt (bars : List Bar) (i : ℕ) : Cell :=
  match rollMeanAt 20 (closes bars) i, rollVarAt 20 (closes bars) i with
  | some m, some v => some ((m : ℝ) - 2 * Real.sqrt (v : ℝ))
  | _, _ => none

/-- Bollinger band width at index `i`: `(upper - lower) / middle` (line 81). -/
noncomputable def bbWidthAt (bars : List Bar) (i : ℕ) : Cell :=
  match bbUpperAt bars i, bbLowerAt bars i, rollMeanAt 20 (closes bars) i with
  | some u, some l, some m => some ((u - l) / (m : ℝ))
  | _, _, _ => none

/-- Volatility at index `i`: 20-day rolling standard deviation of the close
(line 86). -/
noncomputable def volatilityAt (bars : List Bar) (i : ℕ) : Cell :=
  (rollVarAt 20 (closes bars) i).map fun v => Real.sqrt (v : ℝ)

/-- Number of per-day feature fields, `self.features_per_day` (line 21). -/
def features_per_day : ℕ := 19

/-- The 19 cells of data-table row `j`, in the exact order the feature loop
reads them (lines 95-115).  Raw OHLCV cells are never NaN; derived cells are
NaN during their warm-up.  The `getD` defaults are dead: every caller stays
within the table's bounds, as the source loop does. -/
noncomputable def featureCells (bars : List Bar) (j : ℕ) : List Cell :=
  [ some ((bars.getD j default).Open : ℝ),
    some ((bars.getD j default).High : ℝ),
    some ((bars.getD j default).Low : ℝ),
    some ((bars.getD j default).Close : ℝ),
    some ((bars.getD j default).Volume : ℝ),
    cQ (rollMeanAt 5 (closes bars) j),
    cQ (rollMeanAt 10 (closes bars) j),
    cQ (rollMeanAt 20 (closes bars) j),
    cQ (rollMeanAt 30 (closes bars) j),
    cQ (rsiAt (closes bars) j),
    cQ (some ((macdCol (closes bars)).getD j 0)),
    cQ (some ((macdSignalCol (closes bars)).getD j 0)),
    cQ (some ((macdHistCol (closes bars)).getD j 0)),
    bbUpperAt bars j,
    bbLowerAt bars j,
    bbWidthAt bars j,
    cQ (pctChangeAt (closes bars) j),
    cQ (pctChangeAt (volumes bars) j),
    volatilityAt bars j ]

/-- Flattened feature window for target index `i`: the cells of rows
`i - lookback_days, …, i - 1` concatenated (lines 93-116). -/
noncomputable def featureRow (bars : List Bar) (lookback_days i : ℕ) : List Cell :=
  ((List.range' (i - lookback_days) lookback_days).map (featureCells bars)).flatten

/-- Candidate (feature, target) pairs, one per index
`i ∈ [lookback_days, len(bars) - 2]`, the target being the close of row
`i + 1` (lines 92-117), before the NaN filter. -/
noncomputable def prepareCandidates (bars : List Bar) (lookback_days : ℕ) :
    List (List Cell × Cell) :=
  (List.range' lookback_days (bars.length - 1 - lookback_days)).map fun i =>
    (featureRow bars lookback_days i, some (((closes bars).getD (i + 1) 0 : ℚ) : ℝ))

/-- Failure modes of the pipeline.  The source signals them by printing a
message and returning a sentinel (`None` or `False`), or by an unhandled
library exception; the names follow the spec's error taxonomy. -/
inductive StockError where
  | InsufficientHistoryError
  | ModelNotTrainedError
deriving Repr, DecidableEq

/-- A candidate survives the NaN filter when no cell of its window and not
its target is NaN (line 123). -/
def candidateValid (p : List Cell × Cell) : Bool :=
  p.1.all Option.isSome && p.2.isSome

/-- Feature preparation, `prepare_features` (lines 88-128): build the
candidates, then drop every pair containing a NaN.  When the candidate list
is empty the source crashes at line 123 — `np.array([])` of an empty list is
one-dimensional, so `np.isnan(...).any(axis=1)` raises an axis error — which
is the spec's `InsufficientHistoryError`; the windowing stage aborts there
and training is never reached. -/
noncomputable def prepare_features (bars : List Bar) (lookback_days : ℕ) :
    Except StockError (List (List ℝ) × List ℝ) :=
  let cands := prepareCandidates bars lookback_days
  if cands.isEmpty then .error .InsufficientHistoryError
  else
    let valid := cands.filter candidateValid
    .ok (valid.map (fun p => p.1.map (fun c => c.getD 0)),
         valid.map (fun p => p.2.getD 0))

/-- The trained ensemble: `RandomForestRegressor.estimators_`, one regression
function per fitted tree.  The fitting itself (randomized, external library)
is outside the embedding; `predict_future` only consumes the fitted trees. -/
structure Forest where
  trees : List (List ℝ → ℝ)

/-- Ensemble point prediction, `self.model.predict` — the mean of the
individual tree predictions (sklearn forest semantics, line 229). -/
noncomputable def forestPredict (m : Forest) (x : List ℝ) : ℝ :=
  ((m.trees.map fun t => t x).sum) / (m.trees.length : ℝ)

/-- Per-member predictions, `tree.predict` over `estimators_`
(lines 232-235). -/
noncomputable def treePredictions (m : Forest) (x : List ℝ) : List ℝ :=
  m.trees.map fun t => t x

/-- Mean of a list of reals (0 for the empty list, a case the source never
reaches: the forest always has `n_estimators = 100` members). -/
noncomputable def listMean (xs : List ℝ) : ℝ := xs.sum / (xs.length : ℝ)

/-- Population standard deviation, `np.std` (line 237). -/
noncomputable def npStd (xs : List ℝ) : ℝ :=
  Real.sqrt (((xs.map fun x => (x - listMean xs) ^ 2).sum) / (xs.length : ℝ))

/-- Confidence score of one forecast step (lines 237-238):
`1 - std(tree_predictions)/|prediction|` when the prediction is nonzero,
`0` otherwise, clamped into `[0, 0.95]`. -/
noncomputable def confidenceScore (prediction : ℝ) (tree_predictions : List ℝ) : ℝ :=
  let confidence : ℝ :=
    if prediction ≠ 0 then 1 - npStd tree_predictions / |prediction| else 0
  min (max confidence 0) 0.95

/-- The `last_real_data` dictionary of `predict_future` (lines 198-218):
the 19 columns of the final data row, keyed as in the source. -/
structure RowDict where
  Open : ℝ
  High : ℝ
  Low : ℝ
  Close : ℝ
  Volume : ℝ
  MA_5 : ℝ
  MA_10 : ℝ
  MA_20 : ℝ
  MA_30 : ℝ
  RSI : ℝ
  MACD : ℝ
  MACD_Signal : ℝ
  MACD_Histogram : ℝ
  BB_Upper : ℝ
  BB_Lower : ℝ
  BB_Width : ℝ
  Price_Change : ℝ
  Volume_Change : ℝ
  Volatility : ℝ

noncomputable instance : Inhabited RowDict :=
  ⟨⟨0, 0, 0, 0, 0, 0, 0, 0, 0, 0, 0, 0, 0, 0, 0, 0, 0, 0, 0⟩⟩

/-- Synthetic next-day feature list, `create_feature_from_prediction`
(lines 160-190), in the source's return order:
open, high, low, close, volume, MA5, MA10, MA20, MA30, RSI, MACD, signal,
histogram, BB upper, BB lower, BB width, price change, volume change,
volatility. -/
noncomputable def create_feature_from_prediction (prediction : ℝ) (last_real_data : RowDict) :
    List ℝ :=
  [ prediction,
    prediction * 1.01,
    prediction * 0.99,
    prediction,
    last_real_data.Volume,
    (last_real_data.MA_5 * 4 + prediction) / 5,
    (last_real_data.MA_10 * 9 + prediction) / 10,
    (last_real_data.MA_20 * 19 + prediction) / 20,
    (last_real_data.MA_30 * 29 + prediction) / 30,
    last_real_data.RSI,
    last_real_data.MACD,
    last_real_data.MACD_Signal,
    last_real_data.MACD_Histogram,
    last_real_data.BB_Upper,
    last_real_data.BB_Lower,
    last_real_data.BB_Width,
    (prediction - last_real_data.Close) / last_real_data.Close,
    last_real_data.Volume_Change,
    last_real_data.Volatility ]

/-- The dictionary writes at the bottom of the loop (lines 246-250).  The
source reads `new_day_features[3]` into `Volume`; index 3 of the returned
list is the synthetic close, index 4 would be the carried-forward volume. -/
noncomputable def updateLast (last_real_data : RowDict) (prediction : ℝ) (nd : List ℝ) : RowDict :=
  { last_real_data with
    Close := prediction,
    Open := nd.getD 0 0,
    High := nd.getD 1 0,
    Low := nd.getD 2 0,
    Volume := nd.getD 3 0 }

/-- Circular left shift by `k`, `np.roll(v, -k)` on a flat array. -/
def np_roll (v : List ℝ) (k : ℕ) : List ℝ :=
  let s := k % v.length
  v.drop s ++ v.take s

/-- Overwrite the final `nd.length` slots of `v` with `nd`, the slice
assignment `current_features[0, -19:] = new_day_features` (line 244). -/
def overwriteTail (v nd : List ℝ) : List ℝ :=
  v.take (v.length - nd.length) ++ nd

/-- State carried across forecast-loop iterations: the sliding feature
window and the `last_real_data` dictionary. -/
structure LoopState where
  current_features : List ℝ
  last_real_data : RowDict

/-- One synthetic-step update of the loop state (lines 240-250): predict,
build the synthetic day, roll the window left by `features_per_day` and
write the new day at the end, then patch the dictionary. -/
noncomputable def stepState (m : Forest) (st : LoopState) : LoopState :=
  let prediction := forestPredict m st.current_features
  let new_day_features := create_feature_from_prediction prediction st.last_real_data
  { current_features :=
      overwriteTail (np_roll st.current_features features_per_day) new_day_features,
    last_real_data := updateLast st.last_real_data prediction new_day_features }

/-- Loop state after `t` synthetic-step updates. -/
noncomputable def stepN (m : Forest) (st : LoopState) : ℕ → LoopState
  | 0 => st
  | t + 1 => stepState m (stepN m st t)

/-- The forecast loop (lines 228-250), emitting one `(prediction,
confidence)` pair per day.  The source skips the state update on the final
iteration; performing it uniformly is output-equivalent, since the final
state is discarded. -/
noncomputable def predictLoop (m : Forest) (st : LoopState) : ℕ → List (ℝ × ℝ)
  | 0 => []
  | d + 1 =>
      let prediction := forestPredict m st.current_features
      let confidence := confidenceScore prediction (treePredictions m st.current_features)
      (prediction, confidence) :: predictLoop m (stepState m st) d

/-- The synthetic bar created during iteration `t - 1` of the loop — the
`new_day_features` list for step `t ≥ 1`. -/
noncomputable def synthBar (m : Forest) (st : LoopState) (t : ℕ) : List ℝ :=
  let s := stepN m st (t - 1)
  create_feature_from_prediction (forestPredict m s.current_features) s.last_real_data

/-- The attributes of a `StockPredictor` that `predict_future` reads:
the enriched data table (rows and date index), the prepared feature matrix
and targets, and the trained model (`None` before `train_model`). -/
structure PredictorState where
  index : List ℤ
  data : List RowDict
  features : List (List ℝ)
  targets : List ℝ
  model : Option Forest

/-- Multi-day forecast, `predict_future` (lines 192-252).  Untrained model:
the source prints and returns the `(None, None, None)` sentinel — the spec's
`ModelNotTrainedError`.  Otherwise it builds `last_real_data` from the final
data row, the future dates `last_date + 1, …, last_date + days`, seeds the
window with a copy of the final feature row, and runs the loop. -/
noncomputable def predict_future (s : PredictorState) (days : ℕ) :
    Except StockError (List ℝ × List ℝ × List ℤ) :=
  match s.model with
  | none => .error .ModelNotTrainedError
  | some m =>
      let last_real_data := s.data.getLastD default
      let last_date := s.index.getLastD 0
      let future_dates := (List.range days).map fun (i : ℕ) => last_date + ((i : ℤ) + 1)
      let current_features := s.features.getLastD []
      let steps := predictLoop m ⟨current_features, last_real_data⟩ days
      .ok (steps.map Prod.fst, steps.map Prod.snd, future_dates)

/-- Call `predict_future` and expose the post-call predictor state.  The
source method assigns no attribute of `self`: `current_features` starts from
an explicit copy of the final feature row (line 226), `np.roll` allocates a
fresh array, and the slice assignment and `last_real_data` writes target
those locals only — so the post-call state is the pre-call state. -/
noncomputable def predict_future_run (s : PredictorState) (days : ℕ) :
    (Except StockError (List ℝ × List ℝ × List ℤ)) × PredictorState :=
  (predict_future s days, s)

/-! ### Helper lemmas -/

theorem npStd_nonneg (xs : List ℝ) : 0 ≤ npStd xs :=
  Real.sqrt_nonneg _

theorem npStd_const (c : ℝ) (ms : List ℝ) (hne : ms ≠ []) (h : ∀ x ∈ ms, x = c) :
    npStd ms = 0 := by
  have hrep : ms = List.replicate ms.length c :=
    List.eq_replicate_iff.2 ⟨rfl, h⟩
  have hlen : (ms.length : ℝ) ≠ 0 :=
    Nat.cast_ne_zero.2 fun h0 => hne (List.length_eq_zero.1 h0)
  have hsum : ms.sum = (ms.length : ℝ) * c := by
    conv_lhs => rw [hrep]
    simp [List.sum_replicate, nsmul_eq_mul]
  have hmean : listMean ms = c := by
    rw [listMean, hsum]
    exact mul_div_cancel_left₀ c hlen
  have hmap : (ms.map fun x => (x - listMean ms) ^ 2) = List.replicate ms.length 0 := by
    rw [hmean]
    conv_lhs => rw [hrep]
    simp [List.map_replicate]
  rw [npStd, hmap]
  simp [List.sum_replicate]

theorem predictLoop_length (m : Forest) : ∀ (d : ℕ) (st : LoopState),
    (predictLoop m st d).length = d := by
  intro d
  induction d with
  | zero => intro st; rfl
  | succ n ih => intro st; simp [predictLoop, ih]

theorem create_feature_length (p : ℝ) (r : RowDict) :
    (create_feature_from_prediction p r).length = 19 := rfl

theorem overwriteTail_np_roll (v nd : List ℝ) (k : ℕ)
    (hk : k ≤ v.length) (hnd : nd.length = k) :
    overwriteTail (np_roll v k) nd = v.drop k ++ nd := by
  rcases Nat.lt_or_ge k v.length with hlt | hge
  · have hs : k % v.length = k := Nat.mod_eq_of_lt hlt
    have hlen : (v.drop k ++ v.take k).length = v.length := by
      simp only [List.length_append, List.length_drop, List.length_take]
      omega
    unfold overwriteTail np_roll
    simp only [hs, hlen, hnd]
    rw [show v.length - k = (v.drop k).length by simp]
    rw [List.take_left]
  · have heq : k = v.length := le_antisymm hk hge
    subst heq
    unfold overwriteTail np_roll
    simp [Nat.mod_self, hnd]

/-- Concrete one-tree forest (constant prediction 50) used to instantiate
hypothesis-bearing theorems. -/
noncomputable def constForest : Forest := ⟨[fun _ => 50]⟩

/-- Concrete untrained predictor state. -/
noncomputable def untrainedState : PredictorState := ⟨[], [], [], [], none⟩

/-- Concrete trained predictor state with one feature row of width 19. -/
noncomputable def trainedState : PredictorState :=
  ⟨[0], [default], [List.replicate 19 0], [100], some constForest⟩

/-- Concrete loop state: 19-wide window, last row with close 100, volume
1000, all other fields 0. -/
noncomputable def demoRow : RowDict :=
  { Open := 0, High := 0, Low := 0, Close := 100, Volume := 1000,
    MA_5 := 0, MA_10 := 0, MA_20 := 0, MA_30 := 0, RSI := 7,
    MACD := 0, MACD_Signal := 0, MACD_Histogram := 0,
    BB_Upper := 0, BB_Lower := 0, BB_Width := 0,
    Price_Change := 0, Volume_Change := 0, Volatility := 0 }

/-- Concrete loop state built from `demoRow`. -/
noncomputable def demoState : LoopState := ⟨List.replicate 19 0, demoRow⟩

/-! ### Claim C2 — confidence score -/

/-- C2: the confidence score is `clamp(1 - std(members)/|p|, 0, 0.95)` for a
nonzero point estimate `p`, always lies in `[0, 0.95]`, is `0` when `p = 0`,
and is exactly `0.95` when all ensemble members agree and `p ≠ 0`. -/
theorem C2_confidence_spec (p : ℝ) (ms : List ℝ) (hne : ms ≠ []) :
    (0 ≤ confidenceScore p ms ∧ confidenceScore p ms ≤ 0.95)
    ∧ (p = 0 → confidenceScore p ms = 0)
    ∧ (p ≠ 0 → confidenceScore p ms = min (max (1 - npStd ms / |p|) 0) 0.95)
    ∧ (∀ c, (∀ x ∈ ms, x = c) → p ≠ 0 → confidenceScore p ms = 0.95) := by
  refine ⟨⟨?_, ?_⟩, ?_, ?_, ?_⟩
  · exact le_min (le_max_right _ _) (by norm_num)
  · exact min_le_right _ _
  · intro hp
    norm_num [confidenceScore, hp]
  · intro hp
    simp [confidenceScore, hp]
  · intro c hc hp
    have hstd : npStd ms = 0 := npStd_const c ms hne hc
    simp only [confidenceScore, if_pos hp, hstd, zero_div, sub_zero]
    norm_num

/-- Witness for C2 at the concrete input `p = 3`, `ms = [2, 2]`. -/
theorem C2_confidence_spec_witness : confidenceScore 3 [2, 2] = 0.95 :=
  (C2_confidence_spec 3 [2, 2] (by simp)).2.2.2 2 (by simp) (by norm_num)

/-! ### Claim C8 — prediction before training -/

/-- C8: in any predictor state whose model is untrained, requesting a
prediction fails with the model-not-trained error (in the source the guard
at lines 194-196 prints and returns the `(None, None, None)` sentinel, so no
forecast is returned). -/
theorem C8_untrained_fails (s : PredictorState) (days : ℕ)
    (h : s.model = none) :
    predict_future s days = .error .ModelNotTrainedError := by
  simp [predict_future, h]

/-- Witness for C8 at a concrete untrained state. -/
theorem C8_untrained_fails_witness :
    predict_future untrainedState 5 = .error .ModelNotTrainedError :=
  C8_untrained_fails untrainedState 5 rfl

/-! ### Claim C10 — forecasting does not mutate its inputs -/

/-- C10: `predict_future` leaves the predictor state (stored price data,
feature matrix, targets, trained model) unchanged, and a second call with
the same day count on the post-call state returns the identical result. -/
theorem C10_predict_future_pure (s : PredictorState) (days : ℕ) :
    (predict_future_run s days).2 = s
    ∧ (predict_future_run s days).2.data = s.data
    ∧ (predict_future_run s days).2.features = s.features
    ∧ (predict_future_run s days).2.targets = s.targets
    ∧ (predict_future_run s days).2.model = s.model
    ∧ (predict_future_run ((predict_future_run s days).2) days).1 =
        (predict_future_run s days).1 :=
  ⟨rfl, rfl, rfl, rfl, rfl, rfl⟩

/-! ### Claim C1 — forecast shape -/

/-- C1: on any trained state, `predict_future` succeeds and returns exactly
`days` predictions, `days` confidence scores and `days` strictly increasing
dates; `days = 0` yields the empty forecast with no error. -/
theorem C1_forecast_shape (s : PredictorState) (m : Forest) (days : ℕ)
    (h : s.model = some m) :
    ∃ P C D, predict_future s days = .ok (P, C, D)
      ∧ P.length = days ∧ C.length = days ∧ D.length = days
      ∧ D.Pairwise (· < ·)
      ∧ (days = 0 → P = [] ∧ C = [] ∧ D = []) := by
  obtain ⟨idx, dta, fts, tgs, mo⟩ := s
  have hmo : mo = some m := h
  subst hmo
  refine ⟨_, _, _, rfl, ?_, ?_, ?_, ?_, ?_⟩
  · simp [predictLoop_length]
  · simp [predictLoop_length]
  · rw [List.length_map, List.length_range]
  · rw [List.pairwise_map]
    refine (List.pairwise_lt_range days).imp (fun {i j} hij => ?_)
    have hij2 : (i : ℤ) < (j : ℤ) := by exact_mod_cast hij
    linarith
  · rintro rfl
    simp [predictLoop]

/-- Witness for C1 at a concrete trained state and three forecast days. -/
theorem C1_forecast_shape_witness :
    ∃ P C D, predict_future trainedState 3 = .ok (P, C, D)
      ∧ P.length = 3 ∧ C.length = 3 ∧ D.length = 3
      ∧ D.Pairwise (· < ·)
      ∧ (3 = 0 → P = [] ∧ C = [] ∧ D = []) :=
  C1_forecast_shape trainedState constForest 3 rfl

/-! ### Claim C7 — constant window width -/

/-- C7: throughout the forecast loop the feature window keeps its length
`lookback_days × 19`; each update drops the oldest day's 19 fields and
appends the new synthetic day's 19 fields at the end. -/
theorem C7_window_invariant (m : Forest) (st : LoopState) (lookback_days : ℕ)
    (h1 : 1 ≤ lookback_days)
    (h2 : st.current_features.length = lookback_days * features_per_day) :
    (∀ t, (stepN m st t).current_features.length =
        lookback_days * features_per_day)
    ∧ (∀ t, (stepN m st (t + 1)).current_features =
        (stepN m st t).current_features.drop features_per_day ++
          synthBar m st (t + 1)) := by
  have hfp : 19 ≤ lookback_days * features_per_day := by
    have : 1 * features_per_day ≤ lookback_days * features_per_day :=
      Nat.mul_le_mul_right _ h1
    simpa [features_per_day] using this
  have step : ∀ u : LoopState,
      u.current_features.length = lookback_days * features_per_day →
      (stepState m u).current_features =
        u.current_features.drop features_per_day ++
          create_feature_from_prediction (forestPredict m u.current_features)
            u.last_real_data := by
    intro u hu
    show overwriteTail (np_roll u.current_features features_per_day) _ = _
    exact overwriteTail_np_roll _ _ _ (by rw [hu]; exact hfp)
      (create_feature_length _ _)
  have hlen : ∀ t, (stepN m st t).current_features.length =
      lookback_days * features_per_day := by
    intro t
    induction t with
    | zero => exact h2
    | succ n ih =>
        show (stepState m (stepN m st n)).current_features.length = _
        rw [step _ ih]
        simp only [List.length_append, List.length_drop,
          create_feature_length, ih, features_per_day]
        simp only [features_per_day] at hfp
        omega
  refine ⟨hlen, fun t => ?_⟩
  show (stepState m (stepN m st t)).current_features = _
  rw [step _ (hlen t)]
  rfl

/-- Witness for C7 at a concrete one-day window. -/
theorem C7_window_invariant_witness :
    (∀ t, (stepN constForest demoState t).current_features.length =
        1 * features_per_day)
    ∧ (∀ t, (stepN constForest demoState (t + 1)).current_features =
        (stepN constForest demoState t).current_features.drop features_per_day ++
          synthBar constForest demoState (t + 1)) :=
  C7_window_invariant constForest demoState 1 (by norm_num)
    (by simp [demoState, features_per_day])

/-- Point prediction made at loop iteration `t` (from the window after `t`
synthetic updates). -/
noncomputable def loopPred (m : Forest) (st : LoopState) (t : ℕ) : ℝ :=
  forestPredict m ((stepN m st t).current_features)

/-- Fields of `last_real_data` other than Close/Open/High/Low/Volume are
never reassigned by the loop (lines 246-250), so they keep their original
values throughout. -/
theorem stepN_template_fields (m : Forest) (st : LoopState) (t : ℕ) :
    (stepN m st t).last_real_data.MA_5 = st.last_real_data.MA_5
    ∧ (stepN m st t).last_real_data.MA_10 = st.last_real_data.MA_10
    ∧ (stepN m st t).last_real_data.MA_20 = st.last_real_data.MA_20
    ∧ (stepN m st t).last_real_data.MA_30 = st.last_real_data.MA_30
    ∧ (stepN m st t).last_real_data.RSI = st.last_real_data.RSI
    ∧ (stepN m st t).last_real_data.MACD = st.last_real_data.MACD
    ∧ (stepN m st t).last_real_data.MACD_Signal = st.last_real_data.MACD_Signal
    ∧ (stepN m st t).last_real_data.MACD_Histogram = st.last_real_data.MACD_Histogram
    ∧ (stepN m st t).last_real_data.BB_Upper = st.last_real_data.BB_Upper
    ∧ (stepN m st t).last_real_data.BB_Lower = st.last_real_data.BB_Lower
    ∧ (stepN m st t).last_real_data.BB_Width = st.last_real_data.BB_Width
    ∧ (stepN m st t).last_real_data.Price_Change = st.last_real_data.Price_Change
    ∧ (stepN m st t).last_real_data.Volume_Change = st.last_real_data.Volume_Change
    ∧ (stepN m st t).last_real_data.Volatility = st.last_real_data.Volatility := by
  induction t with
  | zero =>
      exact ⟨rfl, rfl, rfl, rfl, rfl, rfl, rfl, rfl, rfl, rfl, rfl, rfl, rfl, rfl⟩
  | succ n ih =>
      simpa [stepN, stepState, updateLast] using ih

/-- The dictionary's Close after an update is the prediction just made
(line 246). -/
theorem stepN_close (m : Forest) (st : LoopState) (t : ℕ) :
    (stepN m st (t + 1)).last_real_data.Close = loopPred m st t := rfl

/-- The dictionary's Volume after an update is `new_day_features[3]`
(line 250) — index 3 of the synthetic list is its close, i.e. the
prediction just made, not the carried-forward volume at index 4. -/
theorem stepN_volume (m : Forest) (st : LoopState) (t : ℕ) :
    (stepN m st (t + 1)).last_real_data.Volume = loopPred m st t := rfl

/-! ### Claim C3 — volume carried forward (code bug) -/

/-- C3 fails on the code: with a one-tree forest that predicts the constant
50 and a last real row of volume 1000, the first synthetic bar carries the
volume 1000, but the second synthetic bar's volume is 50 — the previous
step's prediction, because line 250 stores `new_day_features[3]` (the
synthetic close) instead of index 4 (the volume) into the dictionary.  So
the volume is not carried forward unchanged past the first synthetic step. -/
theorem C3_volume_bug :
    (synthBar constForest demoState 1).getD 4 0 = 1000
    ∧ (synthBar constForest demoState 2).getD 4 0 = 50
    ∧ demoRow.Volume = 1000
    ∧ (synthBar constForest demoState 2).getD 4 0 ≠
        (synthBar constForest demoState 1).getD 4 0 := by
  refine ⟨rfl, ?_, rfl, ?_⟩
  · show (stepN constForest demoState 1).last_real_data.Volume = 50
    rw [stepN_volume]
    simp [loopPred, forestPredict, constForest]
  · have h1 : (synthBar constForest demoState 1).getD 4 0 = 1000 := rfl
    have h2 : (synthBar constForest demoState 2).getD 4 0 = 50 := by
      show (stepN constForest demoState 1).last_real_data.Volume = 50
      rw [stepN_volume]
      simp [loopPred, forestPredict, constForest]
    rw [h1, h2]
    norm_num

/-! ### Claim C4 — synthetic-bar indicator fields -/

/-- C4 as stated fails on the code: the loop never writes the updated moving
averages back into `last_real_data`, so the second synthetic bar's MA5 is
computed from the last real row's MA5 (still 0 here), giving 10, whereas the
claimed recursive update from the first synthetic bar's MA5 would give 18. -/
theorem C4_ma_counterexample :
    (synthBar constForest demoState 2).getD 5 0 = 10
    ∧ ((synthBar constForest demoState 1).getD 5 0 * 4 +
        loopPred constForest demoState 1) / 5 = 18
    ∧ (synthBar constForest demoState 2).getD 5 0 ≠
        ((synthBar constForest demoState 1).getD 5 0 * 4 +
          loopPred constForest demoState 1) / 5 := by
  have hp : ∀ x, forestPredict constForest x = 50 := by
    intro x
    simp [forestPredict, constForest]
  have hma : (stepN constForest demoState 1).last_real_data.MA_5 = 0 :=
    (stepN_template_fields constForest demoState 1).1
  have h2 : (synthBar constForest demoState 2).getD 5 0 = 10 := by
    show ((stepN constForest demoState 1).last_real_data.MA_5 * 4 +
        forestPredict constForest ((stepN constForest demoState 1).current_features)) / 5 = 10
    rw [hma, hp]
    norm_num
  have h1 : (synthBar constForest demoState 1).getD 5 0 = 10 := by
    show ((stepN constForest demoState 0).last_real_data.MA_5 * 4 +
        forestPredict constForest ((stepN constForest demoState 0).current_features)) / 5 = 10
    rw [hp]
    show ((0 : ℝ) * 4 + 50) / 5 = 10
    norm_num
  refine ⟨h2, ?_, ?_⟩
  · rw [h1]
    show ((10 : ℝ) * 4 + forestPredict constForest _) / 5 = 18
    rw [hp]
    norm_num
  · rw [h1, h2]
    show (10 : ℝ) ≠ (10 * 4 + loopPred constForest demoState 1) / 5
    show (10 : ℝ) ≠ (10 * 4 + forestPredict constForest _) / 5
    rw [hp]
    norm_num

/-- C4 amended: every synthetic bar's moving averages are computed from the
MA fields of the last real row (held fixed across iterations, since the loop
writes only Close/Open/High/Low/Volume back into the dictionary); RSI, MACD,
MACD signal, histogram and the Bollinger fields are carried forward
unchanged; and price change is recomputed as
`(point_estimate - last_row.close) / last_row.close`, where `last_row.close`
is the previous step's prediction (the last real close at step 1). -/
theorem C4_synth_fields (m : Forest) (st : LoopState) (t : ℕ) (ht : 1 ≤ t) :
    (synthBar m st t).getD 5 0 =
      (st.last_real_data.MA_5 * 4 + loopPred m st (t - 1)) / 5
    ∧ (synthBar m st t).getD 6 0 =
      (st.last_real_data.MA_10 * 9 + loopPred m st (t - 1)) / 10
    ∧ (synthBar m st t).getD 7 0 =
      (st.last_real_data.MA_20 * 19 + loopPred m st (t - 1)) / 20
    ∧ (synthBar m st t).getD 8 0 =
      (st.last_real_data.MA_30 * 29 + loopPred m st (t - 1)) / 30
    ∧ (synthBar m st t).getD 9 0 = st.last_real_data.RSI
    ∧ (synthBar m st t).getD 10 0 = st.last_real_data.MACD
    ∧ (synthBar m st t).getD 11 0 = st.last_real_data.MACD_Signal
    ∧ (synthBar m st t).getD 12 0 = st.last_real_data.MACD_Histogram
    ∧ (synthBar m st t).getD 13 0 = st.last_real_data.BB_Upper
    ∧ (synthBar m st t).getD 14 0 = st.last_real_data.BB_Lower
    ∧ (synthBar m st t).getD 15 0 = st.last_real_data.BB_Width
    ∧ (synthBar m st t).getD 16 0 =
      (loopPred m st (t - 1) - (stepN m st (t - 1)).last_real_data.Close) /
        (stepN m st (t - 1)).last_real_data.Close
    ∧ (t = 1 → (stepN m st (t - 1)).last_real_data.Close = st.last_real_data.Close)
    ∧ (2 ≤ t → (stepN m st (t - 1)).last_real_data.Close = loopPred m st (t - 2)) := by
  obtain ⟨h5, h10, h20, h30, hrsi, hmacd, hsig, hhist, hup, hlo, hwid, _, _, _⟩ :=
    stepN_template_fields m st (t - 1)
  refine ⟨?_, ?_, ?_, ?_, ?_, ?_, ?_, ?_, ?_, ?_, ?_, rfl, ?_, ?_⟩
  · show ((stepN m st (t - 1)).last_real_data.MA_5 * 4 + loopPred m st (t - 1)) / 5 = _
    rw [h5]
  · show ((stepN m st (t - 1)).last_real_data.MA_10 * 9 + loopPred m st (t - 1)) / 10 = _
    rw [h10]
  · show ((stepN m st (t - 1)).last_real_data.MA_20 * 19 + loopPred m st (t - 1)) / 20 = _
    rw [h20]
  · show ((stepN m st (t - 1)).last_real_data.MA_30 * 29 + loopPred m st (t - 1)) / 30 = _
    rw [h30]
  · exact hrsi
  · exact hmacd
  · exact hsig
  · exact hhist
  · exact hup
  · exact hlo
  · exact hwid
  · rintro rfl
    rfl
  · intro h2t
    obtain ⟨u, hu⟩ : ∃ u, t - 1 = u + 1 := ⟨t - 2, by omega⟩
    rw [hu, stepN_close]
    congr 1
    omega

/-- Witness for C4's amended statement: the first synthetic bar of the
concrete demo run carries the demo row's RSI unchanged. -/
theorem C4_synth_fields_witness :
    (synthBar constForest demoState 1).getD 9 0 = demoState.last_real_data.RSI :=
  (C4_synth_fields constForest demoState 1 (le_refl 1)).2.2.2.2.1

/-! ### Claims C5 and C9 — feature windowing and insufficient history -/

theorem featureCells_length (bars : List Bar) (j : ℕ) :
    (featureCells bars j).length = 19 := rfl

theorem featureRow_length (bars : List Bar) (lookback_days i : ℕ) :
    (featureRow bars lookback_days i).length = lookback_days * 19 := by
  rw [featureRow, List.length_flatten, List.map_map]
  have hconst : (List.length ∘ featureCells bars) = fun _ : ℕ => 19 :=
    funext fun _ => rfl
  rw [hconst, List.map_const', List.length_range', List.sum_replicate,
    smul_eq_mul]

/-- Concrete three-bar series used to instantiate windowing theorems. -/
def demoBars : List Bar := [⟨1, 2, 3, 4, 5⟩, ⟨2, 3, 4, 5, 6⟩, ⟨3, 4, 5, 6, 7⟩]

/-- C5: with `L ≥ lookback_days + 2` bars, the windowing loop produces
exactly `L - lookback_days - 1` candidate pairs; candidate `k` pairs the
flattened window of rows `[lookback_days + k - lookback_days,
lookback_days + k)` with the close of row `lookback_days + k + 1`; every
feature vector has length `lookback_days × 19`; and `prepare_features`
returns exactly the candidates that contain no NaN — pairs with a NaN cell
are dropped, not imputed. -/
theorem C5_feature_windowing (bars : List Bar) (lookback_days : ℕ)
    (h : lookback_days + 2 ≤ bars.length) :
    (prepareCandidates bars lookback_days).length = bars.length - lookback_days - 1
    ∧ (∀ k, k < bars.length - lookback_days - 1 →
        (prepareCandidates bars lookback_days)[k]? =
          some (featureRow bars lookback_days (lookback_days + k),
            some (((closes bars).getD (lookback_days + k + 1) 0 : ℚ) : ℝ)))
    ∧ (∀ p ∈ prepareCandidates bars lookback_days, p.1.length = lookback_days * 19)
    ∧ prepare_features bars lookback_days =
        .ok ((((prepareCandidates bars lookback_days).filter candidateValid).map
            fun p => p.1.map fun c => c.getD 0),
          (((prepareCandidates bars lookback_days).filter candidateValid).map
            fun p => p.2.getD 0))
    ∧ (∀ p ∈ prepareCandidates bars lookback_days, candidateValid p = false →
        p ∉ (prepareCandidates bars lookback_days).filter candidateValid) := by
  have hlen : (prepareCandidates bars lookback_days).length =
      bars.length - lookback_days - 1 := by
    rw [prepareCandidates, List.length_map, List.length_range']
    omega
  refine ⟨hlen, ?_, ?_, ?_, ?_⟩
  · intro k hk
    rw [prepareCandidates, List.getElem?_map,
      List.getElem?_range' _ _ (show k < bars.length - 1 - lookback_days by omega),
      one_mul]
    rfl
  · intro p hp
    obtain ⟨i, _, rfl⟩ := List.mem_map.1 hp
    exact featureRow_length bars lookback_days i
  · have hpos : 0 < (prepareCandidates bars lookback_days).length := by
      rw [hlen]; omega
    have hne : (prepareCandidates bars lookback_days).isEmpty = false :=
      List.isEmpty_eq_false.2 (List.ne_nil_of_length_pos hpos)
    simp [prepare_features, hne]
  · intro p _ hv hmem
    rw [List.mem_filter] at hmem
    rw [hmem.2] at hv
    exact Bool.true_eq_false.mp hv

/-- Witness for C5 at a concrete three-bar series with a one-day lookback. -/
theorem C5_feature_windowing_witness :
    (prepareCandidates demoBars 1).length = demoBars.length - 1 - 1 :=
  (C5_feature_windowing demoBars 1 (by norm_num [demoBars])).1

/-- C9: with fewer than `lookback_days + 2` bars the windowing loop produces
no training rows at all, and `prepare_features` aborts with the
insufficient-history error (in the source the empty candidate array makes
`np.isnan(...).any(axis=1)` raise inside `prepare_features`, so training is
never reached). -/
theorem C9_insufficient_history (bars : List Bar) (lookback_days : ℕ)
    (h : bars.length < lookback_days + 2) :
    prepareCandidates bars lookback_days = []
    ∧ prepare_features bars lookback_days = .error .InsufficientHistoryError := by
  have hn : bars.length - 1 - lookback_days = 0 := by omega
  have hc : prepareCandidates bars lookback_days = [] := by
    rw [prepareCandidates, hn]
    rfl
  exact ⟨hc, by simp [prepare_features, hc]⟩

/-- Witness for C9: an empty series with the default 30-day lookback. -/
theorem C9_insufficient_history_witness :
    prepare_features [] 30 = .error .InsufficientHistoryError :=
  (C9_insufficient_history [] 30 (by norm_num)).2

/-! ### Claim C6 — RSI saturation and warm-up -/

/-- Flat 20-bar close series: every delta is zero. -/
def flat20 : List ℚ := List.replicate 20 100

/-- Alternating 15-bar close series with both gains and losses. -/
def zig15 : List ℚ :=
  [100, 101, 100, 101, 100, 101, 100, 101, 100, 101, 100, 101, 100, 101, 100]

theorem rsiCol_getD (xs : List ℚ) (i : ℕ) (hi : i < xs.length) :
    (rsiCol xs).getD i none = rsiAt xs i := by
  rw [rsiCol, List.getD_eq_getElem?_getD, List.getElem?_map,
    List.getElem?_range hi]
  rfl

/-- C6 fails on the code in two ways.  On a flat series the 14-bar decline
average is zero at index 15 but the RSI there is NaN, not 100 (the float
quotient is `0/0`).  And on an alternating series the RSI is already defined
at index 13, i.e. it is undefined only for the first 13 bars, not 14: the
initial NaN delta is coerced to 0 by the `where` mask, so the rolling
averages are defined from index 13 on. -/
theorem C6_rsi_counterexample :
    (rollMeanCol 14 (lossCol flat20)).getD 15 none = some 0
    ∧ (rsiCol flat20).getD 15 none = none
    ∧ (rsiCol zig15).getD 13 none ≠ none := by
  have hlossf : lossCol flat20 = List.replicate 20 0 := by
    norm_num [lossCol, diffCol, flat20, List.replicate]
  have hgainf : gainCol flat20 = List.replicate 20 0 := by
    norm_num [gainCol, diffCol, flat20, List.replicate]
  have hlf : rollMeanAt 14 (lossCol flat20) 15 = some 0 := by
    rw [rollMeanAt, hlossf]
    norm_num [List.replicate]
  have hgf : rollMeanAt 14 (gainCol flat20) 15 = some 0 := by
    rw [rollMeanAt, hgainf]
    norm_num [List.replicate]
  have hlenf : (lossCol flat20).length = 20 := by rw [hlossf]; rfl
  refine ⟨?_, ?_, ?_⟩
  · rw [rollMeanCol, List.getD_eq_getElem?_getD, List.getElem?_map,
      List.getElem?_range (by rw [hlenf]; norm_num)]
    simp [hlf]
  · rw [rsiCol_getD flat20 15 (by norm_num [flat20])]
    simp [rsiAt, hgf, hlf]
  · rw [rsiCol_getD zig15 13 (by norm_num [zig15])]
    have hgain : gainCol zig15 = [0, 1, 0, 1, 0, 1, 0, 1, 0, 1, 0, 1, 0, 1, 0] := by
      norm_num [gainCol, diffCol, zig15]
    have hloss : lossCol zig15 = [0, 0, 1, 0, 1, 0, 1, 0, 1, 0, 1, 0, 1, 0, 1] := by
      norm_num [lossCol, diffCol, zig15]
    have hg : rollMeanAt 14 (gainCol zig15) 13 = some (1 / 2) := by
      rw [rollMeanAt, hgain]
      norm_num
    have hl : rollMeanAt 14 (lossCol zig15) 13 = some (3 / 7) := by
      rw [rollMeanAt, hloss]
      norm_num
    norm_num [rsiAt, hg, hl]
    simp

/-- C6 amended: the RSI column is undefined for the first 13 bars; at any
index where both rolling averages exist, a zero decline average with a
nonzero gain average saturates the RSI at 100, while a zero decline average
with a zero gain average leaves the RSI undefined (NaN). -/
theorem C6_rsi_amended (xs : List ℚ) (i : ℕ) (hi : i < xs.length) :
    (i < 13 → (rsiCol xs).getD i none = none)
    ∧ (∀ g, rollMeanAt 14 (gainCol xs) i = some g → g ≠ 0 →
        rollMeanAt 14 (lossCol xs) i = some 0 →
        (rsiCol xs).getD i none = some 100)
    ∧ (rollMeanAt 14 (gainCol xs) i = some 0 →
        rollMeanAt 14 (lossCol xs) i = some 0 →
        (rsiCol xs).getD i none = none) := by
  rw [rsiCol_getD xs i hi]
  refine ⟨?_, ?_, ?_⟩
  · intro h13
    have hlt : ¬ (14 ≤ i + 1) := by omega
    simp [rsiAt, rollMeanAt, hlt]
  · intro g hg hgne hl
    simp [rsiAt, hg, hl, hgne]
  · intro hg hl
    simp [rsiAt, hg, hl]

/-- Witness for C6's amended statement: on the alternating series the RSI at
index 5 is inside the warm-up and undefined. -/
theorem C6_rsi_amended_witness : (rsiCol zig15).getD 5 none = none :=
  (C6_rsi_amended zig15 5 (by norm_num [zig15])).1 (by norm_num)

end Stock
